import Mathlib

/-!
Shallow embedding of the trunk8 core (a multi-tenant short-link registry)
and proofs about it.  Python dictionaries are modelled as association
lists whose keys occur at most once (stated as a `Nodup` hypothesis on
the key list where it matters); absent dictionary keys are modelled as
`Option` fields; the external clock is an integer parameter; the
timestamp parser (datetime.fromisoformat, which raises ValueError on bad
input) and the one-way hash are function parameters, following the spec
treatment of them as pluggable collaborators.
-/

namespace Trunk8

/-! ## Link records (src/app/links/models.py) -/

/-- One link record as stored in a tenant links file under a short code.
Each field mirrors a key read by the source; `none` models an absent key. -/
structure LinkData where
  type : Option String := none
  path : Option String := none
  url : Option String := none
  expiration_date : Option String := none
deriving DecidableEq

/-- A tenant links map: Python dict short code to record, as an
association list. -/
abbrev Links := List (String × LinkData)

/-- The expiration test shared verbatim by Link.is_expired
(src/app/links/models.py lines 37-57) and the sweep loops
(src/app/links/utils.py lines 36-46): a missing date is never expired
(Python truthiness also makes the empty string falsy); a date that fails
to parse (ValueError from datetime.fromisoformat, modelled as
`parse s = none`) is never expired; otherwise the record is expired
exactly when the current time is strictly past the parsed date. -/
def linkIsExpired (parse : String → Option Int) (now : Int)
    (expiration_date : Option String) : Bool :=
  match expiration_date with
  | none => false
  | some s =>
    if s = "" then false
    else
      match parse s with
      | none => false
      | some d => decide (d < now)

/-- A Link instance (src/app/links/models.py lines 23-35). -/
structure Link where
  short_code : String
  type : Option String := none
  path : Option String := none
  url : Option String := none
  expiration_date : Option String := none
deriving DecidableEq

/-- Link.is_expired (src/app/links/models.py lines 37-57). -/
def Link.is_expired (parse : String → Option Int) (now : Int) (l : Link) :
    Bool :=
  linkIsExpired parse now l.expiration_date

/-! ## Expiration sweep (src/app/links/utils.py) -/

/-- Python `del links[short_code]` on a dict, on association lists:
every entry carrying the key disappears. -/
def eraseLink (links : Links) (code : String) : Links :=
  links.filter (fun p => p.1 ≠ code)

/-- check_expired_links (src/app/links/utils.py lines 17-82), restricted
to its effect on the in-memory links map when a user context is set:
first collect the short codes whose expiration date is present,
parseable and strictly past the current time, then delete each collected
code from the map.  Asset-file cleanup and the final save touch only the
filesystem, never the map, so they do not appear here. -/
def check_expired_links (parse : String → Option Int) (now : Int)
    (links : Links) : Links :=
  let expired :=
    (links.filter fun p => linkIsExpired parse now p.2.expiration_date).map
      (·.1)
  expired.foldl (fun ls c => eraseLink ls c) links

/-- Iterated sweeps. -/
def sweepIter (parse : String → Option Int) (now : Int) :
    Nat → Links → Links
  | 0, ls => ls
  | n + 1, ls => sweepIter parse now n (check_expired_links parse now ls)

theorem mem_eraseLink {links : Links} {c : String} {p : String × LinkData} :
    p ∈ eraseLink links c ↔ p ∈ links ∧ p.1 ≠ c := by
  simp [eraseLink]

theorem mem_foldl_eraseLink (cs : List String) (links : Links)
    (p : String × LinkData) :
    p ∈ cs.foldl (fun ls c => eraseLink ls c) links ↔
      p ∈ links ∧ p.1 ∉ cs := by
  induction cs generalizing links with
  | nil => simp
  | cons c cs ih =>
    simp only [List.foldl_cons, ih, mem_eraseLink, List.mem_cons]
    constructor
    · rintro ⟨⟨h1, h2⟩, h3⟩
      exact ⟨h1, by rintro (h | h) <;> [exact h2 h; exact h3 h]⟩
    · rintro ⟨h1, h2⟩
      exact ⟨⟨h1, fun h => h2 (Or.inl h)⟩, fun h => h2 (Or.inr h)⟩

theorem mem_check_expired_links {parse : String → Option Int} {now : Int}
    {links : Links} {p : String × LinkData} :
    p ∈ check_expired_links parse now links ↔
      p ∈ links ∧
        p.1 ∉
          (links.filter fun q =>
              linkIsExpired parse now q.2.expiration_date).map (·.1) := by
  unfold check_expired_links
  exact mem_foldl_eraseLink _ links p

theorem check_expired_links_sublist (parse : String → Option Int) (now : Int)
    (links : Links) :
    (check_expired_links parse now links).Sublist links := by
  unfold check_expired_links
  generalize (links.filter fun q =>
      linkIsExpired parse now q.2.expiration_date).map (·.1) = cs
  induction cs generalizing links with
  | nil => simp
  | cons c cs ih =>
    refine (ih (eraseLink links c)).trans ?_
    exact List.filter_sublist links

/-- Two entries of a dict-like association list with the same key are the
same entry. -/
theorem eq_of_fst_eq_of_nodup {links : Links}
    (hnd : (links.map Prod.fst).Nodup) {p q : String × LinkData}
    (hp : p ∈ links) (hq : q ∈ links) (hfst : p.1 = q.1) : p = q := by
  induction links with
  | nil => cases hp
  | cons a tl ih =>
    simp only [List.map_cons, List.nodup_cons] at hnd
    rcases List.mem_cons.mp hp with hpa | hp
    · rcases List.mem_cons.mp hq with hqa | hq
      · rw [hpa, hqa]
      · have h1 : q.1 ∈ tl.map Prod.fst := List.mem_map_of_mem Prod.fst hq
        rw [← hfst, hpa] at h1
        exact absurd h1 hnd.1
    · rcases List.mem_cons.mp hq with hqa | hq
      · have h1 : p.1 ∈ tl.map Prod.fst := List.mem_map_of_mem Prod.fst hp
        rw [hfst, hqa] at h1
        exact absurd h1 hnd.1
      · exact ih hnd.2 hp hq

/-- A record that the expiration test leaves alone survives one sweep. -/
theorem mem_check_expired_links_of_not_expired {parse : String → Option Int}
    {now : Int} {links : Links} {c : String} {ld : LinkData}
    (hnd : (links.map Prod.fst).Nodup) (hmem : (c, ld) ∈ links)
    (hne : linkIsExpired parse now ld.expiration_date = false) :
    (c, ld) ∈ check_expired_links parse now links := by
  rw [mem_check_expired_links]
  refine ⟨hmem, fun hc => ?_⟩
  obtain ⟨q, hq, hq1⟩ := List.mem_map.mp hc
  obtain ⟨hqmem, hqexp⟩ := List.mem_filter.mp hq
  have : q = (c, ld) := eq_of_fst_eq_of_nodup hnd hqmem hmem hq1
  rw [this] at hqexp
  simp only at hqexp
  rw [hne] at hqexp
  cases hqexp

/-- A record that the expiration test leaves alone survives any number of
sweeps. -/
theorem mem_sweepIter_of_not_expired {parse : String → Option Int}
    {now : Int} {c : String} {ld : LinkData}
    (hne : linkIsExpired parse now ld.expiration_date = false) :
    ∀ (n : Nat) (links : Links), (links.map Prod.fst).Nodup →
      (c, ld) ∈ links → (c, ld) ∈ sweepIter parse now n links := by
  intro n
  induction n with
  | zero => intro links _ hmem; exact hmem
  | succ n ih =>
    intro links hnd hmem
    have hsub := check_expired_links_sublist parse now links
    exact ih _ ((hsub.map Prod.fst).nodup hnd)
      (mem_check_expired_links_of_not_expired hnd hmem hne)

/-- The resolve-time expiration gate (src/app/links/routes.py lines
236-250): a looked-up record is reported expired (link not found) exactly
when its expiration date is present, parseable and strictly past the
current time; a ValueError from the parser is caught and the expiration
ignored.  The logic coincides with `linkIsExpired`. -/
def resolveReportsExpired (parse : String → Option Int) (now : Int)
    (link_data : LinkData) : Bool :=
  linkIsExpired parse now link_data.expiration_date

theorem linkIsExpired_none (parse : String → Option Int) (now : Int) :
    linkIsExpired parse now none = false := rfl

theorem linkIsExpired_some (parse : String → Option Int) (now : Int)
    (s : String) :
    linkIsExpired parse now (some s) =
      if s = "" then false
      else
        match parse s with
        | none => false
        | some d => decide (d < now) := rfl

theorem linkIsExpired_eq_true {parse : String → Option Int} {now : Int}
    {s : String} {d : Int} (hpe : parse "" = none) (hp : parse s = some d)
    (hlt : d < now) : linkIsExpired parse now (some s) = true := by
  rw [linkIsExpired_some]
  have hs : s ≠ "" := by
    intro h
    rw [h, hpe] at hp
    cases hp
  rw [if_neg hs, hp]
  simpa using hlt

/-- Claim C3: after one sweep, every record whose parseable expiration
timestamp is strictly before the current time is absent from the record
listing (and was present before the sweep); every record with no
expiration timestamp or a future one is still present after any number
of sweeps.  The hypothesis `parse "" = none` records that the real
parser, datetime.fromisoformat, rejects the empty string; the `Nodup`
hypothesis says the links map is a dict. -/
theorem C3_expiration_sweep (parse : String → Option Int) (now : Int)
    (links : Links) (hpe : parse "" = none)
    (hnd : (links.map Prod.fst).Nodup) :
    (∀ c ld s d, (c, ld) ∈ links → ld.expiration_date = some s →
        parse s = some d → d < now →
        c ∈ links.map Prod.fst ∧
          c ∉ (check_expired_links parse now links).map Prod.fst) ∧
    (∀ c ld, (c, ld) ∈ links →
        (ld.expiration_date = none ∨
          ∃ s d, ld.expiration_date = some s ∧ parse s = some d ∧ now ≤ d) →
        ∀ n, (c, ld) ∈ sweepIter parse now n links) := by
  constructor
  · intro c ld s d hmem hexp hp hlt
    refine ⟨List.mem_map_of_mem Prod.fst hmem, fun hc => ?_⟩
    obtain ⟨q, hq, hq1⟩ := List.mem_map.mp hc
    have hqlinks : q ∈ links :=
      (check_expired_links_sublist parse now links).mem hq
    have hqeq : q = (c, ld) := eq_of_fst_eq_of_nodup hnd hqlinks hmem hq1
    have := (mem_check_expired_links.mp (hqeq ▸ hq)).2
    refine this (List.mem_map.mpr ⟨(c, ld), List.mem_filter.mpr ⟨hmem, ?_⟩, rfl⟩)
    simp only [hexp]
    exact linkIsExpired_eq_true hpe hp hlt
  · intro c ld hmem hfut n
    have hne : linkIsExpired parse now ld.expiration_date = false := by
      rcases hfut with h | ⟨s, d, hs, hp, hle⟩
      · rw [h]; rfl
      · rw [hs, linkIsExpired_some]
        by_cases he : s = ""
        · rw [if_pos he]
        · rw [if_neg he, hp]
          simpa using not_lt.mpr hle
    exact mem_sweepIter_of_not_expired hne n links hnd hmem

theorem C3_expiration_sweep_witness :
    "a" ∉ (check_expired_links
        (fun s => if s = "2020-01-01" then some 0 else none) 5
        [("a", { expiration_date := some "2020-01-01" }), ("b", {})]).map
          Prod.fst ∧
    ("b", ({} : LinkData)) ∈ sweepIter
        (fun s => if s = "2020-01-01" then some 0 else none) 5 3
        [("a", { expiration_date := some "2020-01-01" }), ("b", {})] := by
  have h := C3_expiration_sweep
      (fun s => if s = "2020-01-01" then some 0 else none) 5
      [("a", { expiration_date := some "2020-01-01" }), ("b", {})]
      (by decide) (by decide)
  exact ⟨(h.1 "a" { expiration_date := some "2020-01-01" } "2020-01-01" 0
      (by simp) rfl (by decide) (by decide)).2,
    h.2 "b" {} (by simp) (Or.inl rfl) 3⟩

/-- Claim C5: a record whose expiration field is present but unparsable
is treated as never expiring: Link.is_expired reports it not expired,
the sweep keeps it through any number of passes, and the resolve-time
gate does not report it expired. -/
theorem C5_fail_open_parsing (parse : String → Option Int) (now : Int)
    (l : Link) (s : String) (hs : l.expiration_date = some s)
    (hp : parse s = none) :
    l.is_expired parse now = false ∧
    resolveReportsExpired parse now
        { type := l.type, path := l.path, url := l.url,
          expiration_date := l.expiration_date } = false ∧
    ∀ (links : Links) (c : String) (ld : LinkData),
      (links.map Prod.fst).Nodup → (c, ld) ∈ links →
      ld.expiration_date = some s →
      ∀ n, (c, ld) ∈ sweepIter parse now n links := by
  have hfalse : linkIsExpired parse now (some s) = false := by
    rw [linkIsExpired_some]
    by_cases he : s = ""
    · rw [if_pos he]
    · rw [if_neg he, hp]
  refine ⟨?_, ?_, ?_⟩
  · unfold Link.is_expired
    rw [hs]
    exact hfalse
  · unfold resolveReportsExpired
    simp only [hs]
    exact hfalse
  · intro links c ld hnd hmem hld
    exact fun n =>
      mem_sweepIter_of_not_expired (by rw [hld]; exact hfalse) n links hnd hmem

theorem C5_fail_open_parsing_witness :
    Link.is_expired (fun _ => none) 100
        { short_code := "x", expiration_date := some "garbage" } = false ∧
    ("x", ({ expiration_date := some "garbage" } : LinkData)) ∈ sweepIter
        (fun _ => none) 100 4 [("x", { expiration_date := some "garbage" })] := by
  have h := C5_fail_open_parsing (fun _ => none) 100
      { short_code := "x", expiration_date := some "garbage" } "garbage" rfl rfl
  exact ⟨h.1, h.2.2 [("x", { expiration_date := some "garbage" })] "x"
      { expiration_date := some "garbage" } (by simp) (by simp) rfl 4⟩

/-! ## Account registry (src/app/utils/user_manager.py) -/

/-- One account record from the users file.  Each field mirrors a key the
source reads; `none` models an absent key; the empty string models an
empty stored credential. -/
structure UserData where
  password_hash : Option String := none
  is_admin : Option Bool := none
  display_name : Option String := none
  created_at : Option String := none
deriving DecidableEq

/-- The record with every key absent: the empty Python dict. -/
def UserData.empty : UserData := {}

/-- Python truthiness of a record dict: falsy exactly when the dict is
empty. -/
def UserData.truthy (u : UserData) : Bool :=
  decide (u ≠ UserData.empty)

/-- The users table, `users_config["users"]`: a dict username to record. -/
abbrev Users := List (String × UserData)

/-- Python `users.get(username)`. -/
def lookupUser : Users → String → Option UserData
  | [], _ => none
  | (k, v) :: rest, name => if k = name then some v else lookupUser rest name

/-- In-place overwrite of the record stored under a username, as done by
the plaintext-migration branch of authenticate_user. -/
def updateUser : Users → String → UserData → Users
  | [], _, _ => []
  | (k, v) :: rest, name, u =>
    if k = name then (k, u) :: rest else (k, v) :: updateUser rest name u

/-- Python `del users[username]` on the users dict. -/
def eraseUser (users : Users) (name : String) : Users :=
  users.filter (fun p => p.1 ≠ name)

/-- Outcome of one authenticate_user call: the returned record, the users
table afterwards, and whether save_users_config was invoked. -/
structure AuthResult where
  result : Option UserData
  users : Users
  saved : Bool
deriving DecidableEq

/-- authenticate_user (src/app/utils/user_manager.py lines 125-169).
`hash` models UserManager._hash_password (SHA-256, which the spec treats
as a pluggable one-way function); `env` models the environment variable
TRUNK8_ADMIN_PASSWORD, read with default value the string admin.  Python
readings preserved: `if user_data:` is dict truthiness, and
`if not stored_hash:` is true both for a missing key and for the empty
string.  For the admin username the stored credential is never consulted;
for others a verbatim plaintext match re-hashes and persists the record,
and a hash match returns it untouched. -/
def authenticate_user (hash : String → String) (env : Option String)
    (users : Users) (username password : String) : AuthResult :=
  match lookupUser users username with
  | none => ⟨none, users, false⟩
  | some user_data =>
    if user_data.truthy then
      if username = "admin" then
        if password = env.getD "admin" then ⟨some user_data, users, false⟩
        else ⟨none, users, false⟩
      else
        match user_data.password_hash with
        | none => ⟨none, users, false⟩
        | some stored_hash =>
          if stored_hash = "" then ⟨none, users, false⟩
          else if stored_hash = password then
            let u2 := { user_data with password_hash := some (hash password) }
            ⟨some u2, updateUser users username u2, true⟩
          else if stored_hash = hash password then
            ⟨some user_data, users, false⟩
          else ⟨none, users, false⟩
    else ⟨none, users, false⟩

/-- UserManager.is_admin (lines 240-251): a missing or empty record gives
false; otherwise the is_admin key with default false. -/
def is_admin (users : Users) (username : String) : Bool :=
  match lookupUser users username with
  | some u => if u.truthy then u.is_admin.getD false else false
  | none => false

/-- Outcome of one delete_user call: the returned boolean, the users
table afterwards, and whether the cleanup and save steps were reached. -/
structure DeleteResult where
  ok : Bool
  users : Users
  cleanupRan : Bool
  saveRan : Bool
deriving DecidableEq

/-- delete_user (src/app/utils/user_manager.py lines 389-448).
`cleanupOk` models the success flag returned by _cleanup_user_data, a
filesystem effect; the source logs it and continues either way.
`saveOk` models the return of save_users_config.  The admin check, the
root-account check and the existence check each return false without
touching the table; past them the record is removed and the save result
is returned. -/
def delete_user (users : Users) (username requesting_user : String)
    (cleanupOk saveOk : Bool) : DeleteResult :=
  if is_admin users requesting_user then
    if username = "admin" then ⟨false, users, false, false⟩
    else
      match lookupUser users username with
      | none => ⟨false, users, false, false⟩
      | some _ =>
        let users2 := eraseUser users username
        ⟨saveOk, users2, true, true⟩
  else ⟨false, users, false, false⟩

/-- Unfolding of authenticate_user once the record lookup is known. -/
theorem authenticate_user_some (hash : String → String) (env : Option String)
    (users : Users) (username password : String) (u : UserData)
    (hlk : lookupUser users username = some u) :
    authenticate_user hash env users username password =
      if u.truthy then
        if username = "admin" then
          if password = env.getD "admin" then ⟨some u, users, false⟩
          else ⟨none, users, false⟩
        else
          match u.password_hash with
          | none => ⟨none, users, false⟩
          | some stored_hash =>
            if stored_hash = "" then ⟨none, users, false⟩
            else if stored_hash = password then
              let u2 := { u with password_hash := some (hash password) }
              ⟨some u2, updateUser users username u2, true⟩
            else if stored_hash = hash password then ⟨some u, users, false⟩
            else ⟨none, users, false⟩
      else ⟨none, users, false⟩ := by
  unfold authenticate_user
  rw [hlk]

/-- Claim C2: root-account authentication is decided solely by the
externally supplied secret.  Whatever string (if any) sits in the stored
credential field, authentication for the admin account returns the
stored account exactly when the supplied password equals the external
secret (with default value admin when the variable is unset), and the
success of two runs that differ only in the stored credential field is
identical. -/
theorem C2_root_auth_external_only (hash : String → String)
    (env : Option String) (users1 users2 : Users) (password : String)
    (u : UserData) (p1 p2 : Option String)
    (h1 : lookupUser users1 "admin" = some { u with password_hash := p1 })
    (h2 : lookupUser users2 "admin" = some { u with password_hash := p2 })
    (ht1 : ({ u with password_hash := p1 } : UserData).truthy = true)
    (ht2 : ({ u with password_hash := p2 } : UserData).truthy = true) :
    ((authenticate_user hash env users1 "admin" password).result =
        if password = env.getD "admin" then
          some { u with password_hash := p1 }
        else none) ∧
    (authenticate_user hash env users1 "admin" password).result.isSome =
      (authenticate_user hash env users2 "admin" password).result.isSome ∧
    (authenticate_user hash env users1 "admin" password).users = users1 ∧
    (authenticate_user hash env users1 "admin" password).saved = false := by
  rw [authenticate_user_some hash env users1 "admin" password _ h1,
    authenticate_user_some hash env users2 "admin" password _ h2, ht1, ht2]
  by_cases hpw : password = env.getD "admin" <;> simp [hpw]

theorem C2_root_auth_external_only_witness :
    (authenticate_user (fun s => s) (some "s3cret")
        [("admin", { password_hash := some "fakehash", is_admin := some true })]
        "admin" "s3cret").result =
      some { password_hash := some "fakehash", is_admin := some true } ∧
    (authenticate_user (fun s => s) (some "s3cret")
        [("admin", { password_hash := some "fakehash", is_admin := some true })]
        "admin" "s3cret").result.isSome =
      (authenticate_user (fun s => s) (some "s3cret")
        [("admin", { password_hash := some "tampered", is_admin := some true })]
        "admin" "s3cret").result.isSome := by
  have h := C2_root_auth_external_only (fun s => s) (some "s3cret")
      [("admin", { password_hash := some "fakehash", is_admin := some true })]
      [("admin", { password_hash := some "tampered", is_admin := some true })]
      "s3cret" { is_admin := some true } (some "fakehash") (some "tampered")
      rfl rfl (by decide) (by decide)
  exact ⟨by rw [h.1]; rfl, h.2.1⟩

/-- Claim C4: delete_user fails with the account table unchanged when the
requesting user is not an admin, or the target is the admin account, or
the target does not exist; when all three preconditions hold, the account
is removed from the table and the save step runs regardless of whether
the storage-area cleanup succeeded, the return value being that of the
save. -/
theorem C4_delete_user_preconditions (users : Users)
    (username requesting_user : String) (cleanupOk saveOk : Bool) :
    ((is_admin users requesting_user = false ∨ username = "admin" ∨
        lookupUser users username = none) →
      delete_user users username requesting_user cleanupOk saveOk =
        ⟨false, users, false, false⟩) ∧
    (is_admin users requesting_user = true → username ≠ "admin" →
      ∀ u, lookupUser users username = some u →
        delete_user users username requesting_user cleanupOk saveOk =
          ⟨saveOk, eraseUser users username, true, true⟩) := by
  constructor
  · rintro (h | h | h) <;> unfold delete_user
    · simp [h]
    · by_cases ha : is_admin users requesting_user <;> simp [h, ha]
    · by_cases ha : is_admin users requesting_user <;>
        by_cases hn : username = "admin" <;> simp [h, ha, hn]
  · intro ha hname u hu
    unfold delete_user
    simp [ha, hname, hu]

theorem C4_delete_user_preconditions_witness :
    delete_user
        [("admin", { is_admin := some true }),
          ("bob", { password_hash := some "h" })]
        "bob" "admin" false true =
      ⟨true, [("admin", { is_admin := some true })], true, true⟩ ∧
    delete_user
        [("admin", { is_admin := some true }),
          ("bob", { password_hash := some "h" })]
        "bob" "bob" true true =
      ⟨false,
        [("admin", { is_admin := some true }),
          ("bob", { password_hash := some "h" })], false, false⟩ := by
  constructor
  · have h := (C4_delete_user_preconditions
        [("admin", { is_admin := some true }),
          ("bob", { password_hash := some "h" })]
        "bob" "admin" false true).2 (by decide) (by decide)
        { password_hash := some "h" } (by decide)
    rw [h]; decide
  · exact (C4_delete_user_preconditions
        [("admin", { is_admin := some true }),
          ("bob", { password_hash := some "h" })]
        "bob" "bob" true true).1 (Or.inl (by decide))

/-- Claim C8: for a non-root account whose stored credential equals the
supplied secret verbatim, authentication succeeds and on that path only
the stored credential is replaced by the hash of the secret and the
change persisted; when the stored credential instead equals the hash of
the secret, authentication succeeds with the table untouched and no
save. -/
theorem C8_opportunistic_migration (hash : String → String)
    (env : Option String) (users : Users) (username password : String)
    (u : UserData) (sh : String) (hadmin : username ≠ "admin")
    (hlk : lookupUser users username = some u) (ht : u.truthy = true)
    (hph : u.password_hash = some sh) (hne : sh ≠ "") :
    (sh = password →
      authenticate_user hash env users username password =
        ⟨some { u with password_hash := some (hash password) },
          updateUser users username
            { u with password_hash := some (hash password) },
          true⟩) ∧
    (sh ≠ password → sh = hash password →
      authenticate_user hash env users username password =
        ⟨some u, users, false⟩) := by
  rw [authenticate_user_some hash env users username password u hlk, ht, hph]
  constructor
  · intro hpt
    subst hpt
    simp [hadmin, hne]
  · intro hpt hh
    subst hh
    simp [hadmin, hne, hpt]

theorem C8_opportunistic_migration_witness :
    authenticate_user (fun s => s ++ "!") none
        [("bob", { password_hash := some "pw", display_name := some "Bob" })]
        "bob" "pw" =
      ⟨some { password_hash := some "pw!", display_name := some "Bob" },
        [("bob", { password_hash := some "pw!", display_name := some "Bob" })],
        true⟩ ∧
    authenticate_user (fun s => s ++ "!") none
        [("bob", { password_hash := some "pw!", display_name := some "Bob" })]
        "bob" "pw" =
      ⟨some { password_hash := some "pw!", display_name := some "Bob" },
        [("bob", { password_hash := some "pw!", display_name := some "Bob" })],
        false⟩ := by
  constructor
  · have h := (C8_opportunistic_migration (fun s => s ++ "!") none
        [("bob", { password_hash := some "pw", display_name := some "Bob" })]
        "bob" "pw" { password_hash := some "pw", display_name := some "Bob" }
        "pw" (by decide) (by decide) (by decide) rfl (by decide)).1 rfl
    rw [h]; decide
  · have h := (C8_opportunistic_migration (fun s => s ++ "!") none
        [("bob", { password_hash := some "pw!", display_name := some "Bob" })]
        "bob" "pw" { password_hash := some "pw!", display_name := some "Bob" }
        "pw!" (by decide) (by decide) (by decide) rfl (by decide)).2
        (by decide) rfl
    rw [h]

/-- Claim C10: a non-root account whose record lacks a stored credential,
or stores the empty string, can never authenticate: for every supplied
secret the call returns none and neither modifies nor persists the
table. -/
theorem C10_missing_credential_never_authenticates (hash : String → String)
    (env : Option String) (users : Users) (username : String) (u : UserData)
    (hadmin : username ≠ "admin") (hlk : lookupUser users username = some u)
    (hph : u.password_hash = none ∨ u.password_hash = some "") :
    ∀ password,
      authenticate_user hash env users username password =
        ⟨none, users, false⟩ := by
  intro password
  rw [authenticate_user_some hash env users username password u hlk]
  by_cases ht : u.truthy = true
  · rcases hph with h | h <;> rw [ht, h] <;> simp [hadmin]
  · simp only [Bool.not_eq_true] at ht
    rw [ht]
    simp

theorem C10_missing_credential_never_authenticates_witness :
    authenticate_user (fun s => s) none
        [("bob", { display_name := some "Bob" })] "bob" "anything" =
      ⟨none, [("bob", { display_name := some "Bob" })], false⟩ ∧
    authenticate_user (fun s => s) none
        [("eve", { password_hash := some "" })] "eve" "" =
      ⟨none, [("eve", { password_hash := some "" })], false⟩ := by
  refine ⟨?_, ?_⟩
  · exact C10_missing_credential_never_authenticates (fun s => s) none
      [("bob", { display_name := some "Bob" })] "bob"
      { display_name := some "Bob" } (by decide) rfl (Or.inl rfl) "anything"
  · exact C10_missing_credential_never_authenticates (fun s => s) none
      [("eve", { password_hash := some "" })] "eve"
      { password_hash := some "" } (by decide) rfl (Or.inr rfl) ""

/-! ## Short-code validation (src/app/links/utils.py lines 238-311) -/

/-- The reserved-word blocklist (src/app/links/utils.py lines 265-306). -/
def reserved_words : List String :=
  ["settings", "users", "profile",
   "add", "links", "edit_link", "delete_link", "delete",
   "auth", "login", "logout", "register", "switch-user", "switch-back",
   "admin", "api", "static", "assets",
   "edit", "new", "create", "update", "remove", "list", "index", "home",
   "dashboard", "config", "configuration", "system", "health", "status",
   "favicon.ico", "robots.txt", "sitemap.xml"]

/-- validate_short_code (src/app/links/utils.py lines 238-311).  The two
Unicode string primitives the source relies on enter as parameters:
`isalnum` is the per-character test behind Python str.isalnum, true on
every Unicode letter or digit rather than only ASCII, and `lower` is
Python str.lower.  Returns the (is_valid, error_message) pair; the
reserved-word message in the source additionally quotes the offending
code, elided here. -/
def validate_short_code (isalnum : Char → Bool) (lower : String → String)
    (short_code : String) : Bool × String :=
  if short_code = "" then (false, "Short code cannot be empty")
  else if short_code.length < 1 then
    (false, "Short code must be at least 1 character")
  else if short_code.length > 50 then
    (false, "Short code must be 50 characters or less")
  else if ¬ short_code.data.all (fun c => isalnum c || c = '-' || c = '_') then
    (false,
      "Short code can only contain letters, numbers, hyphens, and underscores")
  else if lower short_code ∈ reserved_words then
    (false, "is a reserved word and cannot be used")
  else (true, "")

/-- The charset [A-Za-z0-9_-] named by the spec data model. -/
def specCharOk (c : Char) : Bool :=
  ('A' ≤ c && c ≤ 'Z') || ('a' ≤ c && c ≤ 'z') || ('0' ≤ c && c ≤ '9') ||
    c = '-' || c = '_'

/-- Python str.isalnum per character, restricted to the Latin-1 block
(code points below 0x100) where it is fully determined by the Unicode
character database: the ASCII letters and digits, the signs
U+00AA U+00B5 U+00BA, the superscripts U+00B2 U+00B3 U+00B9, the vulgar
fractions U+00BC-U+00BE, and the letter ranges U+00C0-U+00D6,
U+00D8-U+00F6, U+00F8-U+00FF.  Characters outside the block are mapped
to false; the concrete inputs below stay inside it. -/
def latin1IsAlnum (c : Char) : Bool :=
  ('A' ≤ c && c ≤ 'Z') || ('a' ≤ c && c ≤ 'z') || ('0' ≤ c && c ≤ '9') ||
    c = 'ª' || c = 'µ' || c = 'º' || c = '²' || c = '³' || c = '¹' ||
    c = '¼' || c = '½' || c = '¾' ||
    ('À' ≤ c && c ≤ 'Ö') || ('Ø' ≤ c && c ≤ 'ö') || ('ø' ≤ c && c ≤ 'ÿ')

/-- Python str.lower restricted to the Latin-1 block: A-Z map to a-z, the
letters U+00C0-U+00DE other than the multiplication sign map down by
0x20, everything else in the block is unchanged. -/
def latin1Lower (s : String) : String :=
  String.mk (s.data.map fun c =>
    if 'A' ≤ c && c ≤ 'Z' then Char.ofNat (c.toNat + 32)
    else if 'À' ≤ c && c ≤ 'Þ' && c ≠ '×' then Char.ofNat (c.toNat + 32)
    else c)

theorem ne_empty_length_pos {s : String} (h : s ≠ "") : 0 < s.length := by
  obtain ⟨data⟩ := s
  cases data with
  | nil => exact absurd rfl h
  | cons a l => simp [String.length]

/-- Claim C7 corrected: validation accepts a string exactly when it is
1 to 50 characters long, every character passes the Python alphanumeric
test or is a hyphen or underscore, and its lowercased form is not a
reserved word.  The charset is therefore wider than [A-Za-z0-9_-]: any
Unicode letter or digit is allowed (see the counterexample), and the
reserved check is case-insensitive. -/
theorem C7_validation_policy (isalnum : Char → Bool)
    (lower : String → String) (short_code : String) :
    (validate_short_code isalnum lower short_code).1 = true ↔
      (1 ≤ short_code.length ∧ short_code.length ≤ 50 ∧
        (∀ c ∈ short_code.data, (isalnum c || c = '-' || c = '_') = true) ∧
        lower short_code ∉ reserved_words) := by
  unfold validate_short_code
  by_cases h0 : short_code = ""
  · subst h0
    simp [String.length]
  · rw [if_neg h0]
    have hlen := ne_empty_length_pos h0
    rw [if_neg (by omega : ¬ short_code.length < 1)]
    by_cases h50 : short_code.length > 50
    · rw [if_pos h50]
      simp
      omega
    · rw [if_neg h50]
      by_cases hchars :
          short_code.data.all (fun c => isalnum c || c = '-' || c = '_') = true
      · rw [if_neg (by simp [hchars])]
        by_cases hres : lower short_code ∈ reserved_words
        · rw [if_pos hres]
          simp [hres]
        · rw [if_neg hres]
          simp only [List.all_eq_true] at hchars
          constructor
          · exact fun _ => ⟨by omega, by omega, hchars, hres⟩
          · exact fun _ => rfl
      · rw [if_pos (by simp [hchars])]
        constructor
        · intro h
          simp at h
        · rintro ⟨_, _, hall, _⟩
          exact absurd (List.all_eq_true.mpr hall) hchars

/-- Claim C7 counterexample: the validator accepts the one-character
code é, a Unicode letter outside [A-Za-z0-9_-], so acceptance does not
imply membership in that charset. -/
theorem C7_charset_counterexample :
    (validate_short_code latin1IsAlnum latin1Lower "é").1 = true ∧
      ¬ (∀ c ∈ "é".data, specCharOk c = true) := by
  constructor
  · decide
  · decide

/-! ## Link creation and identifier allocation
(src/app/links/routes.py add_link, lines 343-591) -/

/-- The per-tenant stores visible to add_link: for each username from
user_manager.list_users, the parsed links table read from that tenant
links file; `none` models a file whose read or parse raised (OSError,
TomlDecodeError, KeyError), which the scan skips with continue. -/
abbrev Stores := String → Option Links

/-- The global existence scan of add_link (routes.py lines 376-389 and
405-419): the short code exists when some listed tenant has a readable
links table containing it as a key. -/
def link_exists_globally (users : List String) (stores : Stores)
    (short_code : String) : Bool :=
  users.any fun username =>
    match stores username with
    | some user_links => user_links.any fun p => p.1 = short_code
    | none => false

/-- The auto-generation probe (routes.py lines 371-392): keep drawing
codes while the drawn code exists in some tenant store.  `gen i` is the
code produced by the i-th call of secrets.token_urlsafe(6).  The source
loop is `while True`; the model adds explicit fuel so the number of
iterations is observable: `none` means the loop is still running after
`fuel` draws. -/
def generate_unique_code (users : List String) (stores : Stores)
    (gen : Nat → String) : Nat → Nat → Option String
  | 0, _ => none
  | fuel + 1, i =>
    if link_exists_globally users stores (gen i) then
      generate_unique_code users stores gen fuel (i + 1)
    else some (gen i)

theorem generate_unique_code_succeeds (users : List String)
    (stores : Stores) (gen : Nat → String) :
    ∀ (fuel start j : Nat), start ≤ j → j < start + fuel →
      link_exists_globally users stores (gen j) = false →
      generate_unique_code users stores gen fuel start ≠ none := by
  intro fuel
  induction fuel with
  | zero => intro start j h1 h2 _; omega
  | succ fuel ih =>
    intro start j h1 h2 hfresh
    unfold generate_unique_code
    by_cases hex : link_exists_globally users stores (gen start) = true
    · rw [if_pos hex]
      have hj : start ≠ j := by
        intro h
        rw [h, hfresh] at hex
        cases hex
      exact ih (start + 1) j (by omega) (by omega) hfresh
    · rw [if_neg hex]
      exact Option.noConfusion

/-- Claim C9 corrected: the probe has no retry bound (the source loop is
`while True`); any code it returns is globally fresh, and it terminates
exactly when the generator eventually yields a fresh code — if draw i is
the first fresh one, i+1 iterations suffice — but when every draw
collides it runs forever (see the counterexample). -/
theorem C9_allocation_probe (users : List String) (stores : Stores)
    (gen : Nat → String) :
    (∀ fuel start c,
      generate_unique_code users stores gen fuel start = some c →
      link_exists_globally users stores c = false) ∧
    (∀ i, link_exists_globally users stores (gen i) = false →
      generate_unique_code users stores gen (i + 1) 0 ≠ none) := by
  constructor
  · intro fuel
    induction fuel with
    | zero => intro start c h; cases h
    | succ fuel ih =>
      intro start c h
      unfold generate_unique_code at h
      by_cases hex : link_exists_globally users stores (gen start) = true
      · rw [if_pos hex] at h
        exact ih (start + 1) c h
      · rw [if_neg hex] at h
        rw [← Option.some_inj.mp h]
        exact Bool.not_eq_true _ ▸ hex
  · intro i hfresh
    exact generate_unique_code_succeeds users stores gen (i + 1) 0 i
      (Nat.zero_le i) (by omega) hfresh

theorem C9_allocation_probe_witness :
    generate_unique_code ["admin"]
        (fun u => if u = "admin" then some [("x1", {})] else none)
        (fun i => if i = 0 then "x1" else "fresh") 2 0 ≠ none := by
  exact (C9_allocation_probe ["admin"]
      (fun u => if u = "admin" then some [("x1", {})] else none)
      (fun i => if i = 0 then "x1" else "fresh")).2 1 (by decide)

/-- The probe state of the C9 counterexample: a single tenant store that
already holds the code x1 while every draw of the generator repeats x1,
so that no amount of fuel lets the while-True loop exit. -/
def probeNeverTerminates : Prop :=
  ∀ fuel start,
    generate_unique_code ["admin"]
      (fun u => if u = "admin" then some [("x1", {})] else none)
      (fun _ => "x1") fuel start = none

/-- Claim C9 counterexample: with the colliding state above the probe is
still running after every finite number of regeneration attempts — in
particular after 50 — so no fixed retry count bounds it. -/
theorem C9_unbounded_counterexample :
    probeNeverTerminates ∧
      generate_unique_code ["admin"]
        (fun u => if u = "admin" then some [("x1", {})] else none)
        (fun _ => "x1") 50 0 = none := by
  have h : probeNeverTerminates := by
    intro fuel
    induction fuel with
    | zero => intro start; rfl
    | succ fuel ih =>
      intro start
      unfold generate_unique_code
      rw [if_pos (by decide)]
      exact ih (start + 1)
  exact ⟨h, h 50 0⟩

/-! ## ConfigLoader (src/app/utils/config_loader.py) -/

/-- The ConfigLoader state (lines 37-56) over an abstract parsed-TOML
content type τ.  Modification times are integers; `none` models the
Python None sentinel.  The dead field _user_mod_times (initialised and
never read or written again in the source) is omitted. -/
structure ConfigLoader (τ : Type) where
  app_config : τ
  user_config : τ
  links_config : τ
  themes_config : τ
  last_app_config_mod_time : Option Int := none
  last_user_config_mod_time : Option Int := none
  last_links_config_mod_time : Option Int := none
  last_themes_config_mod_time : Option Int := none
  current_links_path : Option String := none
  current_user_config_path : Option String := none
  current_user : Option String := none

/-- set_user_context (src/app/utils/config_loader.py lines 58-71). -/
def set_user_context {τ : Type} (s : ConfigLoader τ)
    (username : Option String) : ConfigLoader τ :=
  if s.current_user ≠ username then
    { s with
      current_user := username,
      last_links_config_mod_time := none,
      last_user_config_mod_time := none,
      current_links_path := none,
      current_user_config_path := none }
  else s

/-- Python truthiness of an optional string: None and the empty string
are both falsy. -/
def strTruthy : Option String → Bool
  | none => false
  | some s => decide (s ≠ "")

/-- The resolution `username or self.current_user or "admin"` used by
every per-user path helper. -/
def resolveUser (username current : Option String) : String :=
  if strTruthy username then username.getD "admin"
  else if strTruthy current then current.getD "admin"
  else "admin"

/-- get_user_links_file (lines 73-85): users/<user>/links.toml made
absolute.  With the working directory fixed, os.path.abspath is an
injective constant prefix, so path identity is modelled by the relative
path itself. -/
def get_user_links_file {τ : Type} (s : ConfigLoader τ)
    (username : Option String) : String :=
  "users/" ++ resolveUser username s.current_user ++ "/links.toml"

/-- The filesystem visible to the loader: each present path carries its
current modification time and the outcome of parsing its bytes —
`some c` when toml.load yields c, `none` when toml.load raises on them
(a corrupt file); an absent path is `none` overall.  A stat failure
other than a missing file lands in the same generic except branch of
the source as a parse failure and is observationally identical to it,
so the corrupt-content case covers both. -/
abbrev FS (τ : Type) := String → Option (Int × Option τ)

/-- Outcome of one _load_links_config call: the loader state, the
filesystem (the missing-file branch writes an empty links file), and
whether the links file was read into memory on this call. -/
structure LoadResult (τ : Type) where
  state : ConfigLoader τ
  fs : FS τ
  reloaded : Bool

/-- The path-change guard at the head of _load_links_config (lines
284-287): when the computed per-user path differs from the remembered
one, remember it and reset the freshness timestamp. -/
def resetPathIfChanged {τ : Type} (s : ConfigLoader τ)
    (links_config_path : String) : ConfigLoader τ :=
  if s.current_links_path ≠ some links_config_path then
    { s with
      current_links_path := some links_config_path,
      last_links_config_mod_time := none }
  else s

/-- _load_links_config (src/app/utils/config_loader.py lines 274-307):
recompute the per-user path, apply the path-change guard, then reload
the file exactly when its modification time differs from the last one
seen.  When toml.load raises, the generic except branch (lines 306-307)
only logs: links_config keeps whatever it held — possibly the previous
tenant records — and the timestamp stays as the guard left it, so the
result is the guarded state with nothing read.  A missing file is
created holding an empty links table (`emptyLinks` is its parsed form,
`createdMtime` the time the freshly written file gets). -/
def load_links_config {τ : Type} (s : ConfigLoader τ) (fs : FS τ)
    (emptyLinks : τ) (createdMtime : Int) : LoadResult τ :=
  let links_config_path := get_user_links_file s none
  let s1 := resetPathIfChanged s links_config_path
  match fs links_config_path with
  | some (current_mod_time, parsed) =>
    if some current_mod_time ≠ s1.last_links_config_mod_time then
      match parsed with
      | some content =>
        ⟨{ s1 with
            links_config := content,
            last_links_config_mod_time := some current_mod_time }, fs, true⟩
      | none => ⟨s1, fs, false⟩
    else ⟨s1, fs, false⟩
  | none =>
    ⟨{ s1 with
        links_config := emptyLinks,
        last_links_config_mod_time := some createdMtime },
      fun p =>
        if p = links_config_path then some (createdMtime, some emptyLinks)
        else fs p,
      true⟩

theorem resetPathIfChanged_of_none {τ : Type} {s : ConfigLoader τ}
    {p : String} (hpath : s.current_links_path = none) :
    resetPathIfChanged s p =
      { s with
        current_links_path := some p,
        last_links_config_mod_time := none } := by
  unfold resetPathIfChanged
  rw [if_pos (by rw [hpath]; exact fun h => Option.noConfusion h)]

theorem resetPathIfChanged_of_same {τ : Type} {s : ConfigLoader τ}
    {p : String} (hpath : s.current_links_path = some p) :
    resetPathIfChanged s p = s := by
  unfold resetPathIfChanged
  rw [if_neg (by rw [hpath]; exact fun h => h rfl)]

/-- Behaviour of the loader when no path has been remembered (the state
right after a tenant switch): the file is read when it parses, the
in-memory records are kept when it is corrupt, an empty file is created
when it is missing. -/
theorem load_links_config_of_fresh {τ : Type} (s : ConfigLoader τ)
    (fs : FS τ) (e : τ) (m : Int) (hpath : s.current_links_path = none) :
    load_links_config s fs e m =
      match fs (get_user_links_file s none) with
      | some (mt, some content) =>
        ⟨{ s with
            current_links_path := some (get_user_links_file s none),
            links_config := content,
            last_links_config_mod_time := some mt }, fs, true⟩
      | some (_, none) =>
        ⟨{ s with
            current_links_path := some (get_user_links_file s none),
            last_links_config_mod_time := none }, fs, false⟩
      | none =>
        ⟨{ s with
            current_links_path := some (get_user_links_file s none),
            links_config := e,
            last_links_config_mod_time := some m },
          fun p =>
            if p = get_user_links_file s none then some (m, some e)
            else fs p,
          true⟩ := by
  unfold load_links_config
  simp only [resetPathIfChanged_of_none hpath]
  cases hfs : fs (get_user_links_file s none) with
  | some x =>
    obtain ⟨mt, parsed⟩ := x
    cases parsed with
    | some c => rfl
    | none => rfl
  | none => rfl

/-- Behaviour of the loader when the remembered path and timestamp match
the parseable file: a no-op, no read. -/
theorem load_links_config_cached {τ : Type} (s : ConfigLoader τ)
    (fs : FS τ) (e : τ) (m mt : Int) (c : τ)
    (hpath : s.current_links_path = some (get_user_links_file s none))
    (hfs : fs (get_user_links_file s none) = some (mt, some c))
    (hlast : s.last_links_config_mod_time = some mt) :
    load_links_config s fs e m = ⟨s, fs, false⟩ := by
  unfold load_links_config
  simp only [resetPathIfChanged_of_same hpath]
  rw [hfs]
  simp only
  rw [if_neg (by rw [hlast]; exact fun h => h rfl)]

/-- Behaviour of the loader when the remembered path matches but the
file does not parse: every retry hits the except branch and leaves the
state alone. -/
theorem load_links_config_retry_corrupt {τ : Type} (s : ConfigLoader τ)
    (fs : FS τ) (e : τ) (m mt : Int)
    (hpath : s.current_links_path = some (get_user_links_file s none))
    (hfs : fs (get_user_links_file s none) = some (mt, none)) :
    load_links_config s fs e m = ⟨s, fs, false⟩ := by
  unfold load_links_config
  simp only [resetPathIfChanged_of_same hpath]
  rw [hfs]
  simp only
  by_cases hlast : (some mt : Option Int) ≠ s.last_links_config_mod_time
  · rw [if_pos hlast]
  · rw [if_neg hlast]

/-- Claim C6 corrected: switching to a different tenant resets only the
record/settings freshness state — the app and theme catalog configs and
their timestamps are untouched.  The next record load reads the new
tenant file when it parses, and synthesizes an empty set when it is
missing; but when the new tenant file exists and fails to parse, the
loader only logs and keeps the in-memory records, so the previous
tenant records stay visible.  Once that first load has happened, a
further load with the filesystem unchanged is a no-op.  The differences
from the claim as stated, both exhibited by the counterexample: the
corrupt-file case leaks the previous tenant cached records, and the
first load after re-entering a previously visited tenant re-reads an
unchanged file. -/
theorem C6_tenant_switch_frame {τ : Type} (s : ConfigLoader τ)
    (username : Option String) (hdiff : s.current_user ≠ username) :
    ((set_user_context s username).app_config = s.app_config ∧
      (set_user_context s username).themes_config = s.themes_config ∧
      (set_user_context s username).last_app_config_mod_time =
        s.last_app_config_mod_time ∧
      (set_user_context s username).last_themes_config_mod_time =
        s.last_themes_config_mod_time ∧
      (set_user_context s username).last_links_config_mod_time = none ∧
      (set_user_context s username).last_user_config_mod_time = none) ∧
    (∀ (fs : FS τ) (e : τ) (m : Int),
      (load_links_config (set_user_context s username) fs e
          m).state.links_config =
        match fs (get_user_links_file (set_user_context s username) none) with
        | some (_, some content) => content
        | some (_, none) => s.links_config
        | none => e) ∧
    (∀ (fs : FS τ) (e : τ) (m m2 : Int),
      load_links_config
          (load_links_config (set_user_context s username) fs e m).state
          (load_links_config (set_user_context s username) fs e m).fs e m2 =
        ⟨(load_links_config (set_user_context s username) fs e m).state,
          (load_links_config (set_user_context s username) fs e m).fs,
          false⟩) := by
  have hset : set_user_context s username =
      { s with
        current_user := username,
        last_links_config_mod_time := none,
        last_user_config_mod_time := none,
        current_links_path := none,
        current_user_config_path := none } := by
    unfold set_user_context
    rw [if_pos hdiff]
  have hpath : (set_user_context s username).current_links_path = none := by
    rw [hset]
  refine ⟨by rw [hset]; exact ⟨rfl, rfl, rfl, rfl, rfl, rfl⟩, ?_, ?_⟩
  · intro fs e m
    rw [load_links_config_of_fresh _ fs e m hpath]
    cases hfs : fs (get_user_links_file (set_user_context s username) none) with
    | some x =>
      obtain ⟨mt, parsed⟩ := x
      cases parsed with
      | some c => rfl
      | none => rw [hset]
    | none => rfl
  · intro fs e m m2
    rw [load_links_config_of_fresh _ fs e m hpath]
    cases hfs : fs (get_user_links_file (set_user_context s username) none) with
    | some x =>
      obtain ⟨mt, parsed⟩ := x
      cases parsed with
      | some c =>
        simp only
        exact load_links_config_cached _ fs e m2 mt c rfl hfs rfl
      | none =>
        simp only
        exact load_links_config_retry_corrupt _ fs e m2 mt rfl hfs
    | none =>
      simp only
      refine load_links_config_cached _ _ e m2 m e rfl ?_ rfl
      exact if_pos rfl

/-- The two-tenant filesystem of the C6 scenarios: the links file of
tenant a has mtime 5 and parses to content 1, that of tenant b mtime 7
and content 2; nothing on disk changes during the scenario. -/
def fs0 : FS Nat := fun p =>
  if p = "users/a/links.toml" then some (5, some 1)
  else if p = "users/b/links.toml" then some (7, some 2)
  else none

/-- Variant filesystem where tenant b links file exists (mtime 7) but
its bytes do not parse. -/
def fsCorrupt : FS Nat := fun p =>
  if p = "users/a/links.toml" then some (5, some 1)
  else if p = "users/b/links.toml" then some (7, none)
  else none

/-- A loader that starts in tenant a context with nothing cached yet. -/
def s0 : ConfigLoader Nat :=
  { app_config := 0, user_config := 0, links_config := 0, themes_config := 0,
    current_user := some "a" }

theorem C6_tenant_switch_frame_witness :
    (set_user_context s0 (some "b")).app_config = s0.app_config ∧
    (load_links_config (set_user_context s0 (some "b")) fs0 9
        99).state.links_config = 2 := by
  have h := C6_tenant_switch_frame s0 (some "b") (by decide)
  refine ⟨h.1.1, ?_⟩
  rw [h.2.1 fs0 9 99]
  decide

/-- Claim C6 counterexample, two traces.  Leak: load tenant a (records
1), switch to tenant b whose links file exists but does not parse, load
— links_config still holds tenant a records (1) in tenant b context, so
switching does leak one tenant cached record data into the other view.
Forced reload: load tenant a, switch to b and load, switch back to a
and load again — the a links file never changed after its first read,
yet the third load re-reads it (reloaded = true), so a re-entered
tenant does not benefit from caching on its first access. -/
theorem C6_reentry_reload_counterexample :
    (load_links_config
        (set_user_context (load_links_config s0 fsCorrupt 9 99).state
          (some "b")) fsCorrupt 9 99).state.links_config = 1 ∧
    (load_links_config
        (set_user_context
          (load_links_config
            (set_user_context (load_links_config s0 fs0 9 99).state
              (some "b")) fs0 9 99).state
          (some "a")) fs0 9 99).reloaded = true := by
  constructor
  · decide
  · decide

end Trunk8
